import Mathlib

/-!
Verification of the real-time event synchronization client of the SuperMean
repository (frontend/services/websocketService.ts and the websocket-driven
upsert functions of frontend/store/useAgentStore.ts and
frontend/store/useMissionStore.ts), as a shallow embedding in Lean 4.

The embedding models:
* the `WebSocketService` class as a state structure `WS` plus a step
  function over delivered events (`connect`, `disconnect`, transport
  `open`/`close`/`error` events, reconnect-timer firings);
* browser `WebSocket` objects as identified sockets carrying a readyState;
  every socket ever constructed keeps its event handlers attached (the
  source never detaches them), so events from superseded sockets still
  reach the service's handlers, exactly as in the source;
* `handleMessage` dispatch (a single try/catch around `JSON.parse` and a
  `forEach` over the registered handlers) as `handleMessage`/`runHandlers`;
* the zustand store functions `updateAgentFromWebSocket` /
  `updateMissionFromWebSocket` over entities modelled as an id plus an
  association list of fields, with JS object spread `{...a, ...agent}`
  modelled by `mergeFields` (keys of the old record first, values
  overridden by the incoming record, then the incoming record's new keys).
-/

namespace SuperMean

/-- ConnectionStatus enum of websocketService.ts (CONNECTING, CONNECTED,
DISCONNECTED, ERROR). -/
inductive ConnectionStatus
  | connecting
  | connected
  | disconnected
  | error
deriving DecidableEq, Repr

/-- MessageType enum of websocketService.ts. -/
inductive MessageType
  | MISSION_UPDATE
  | AGENT_UPDATE
  | SYSTEM_NOTIFICATION
deriving DecidableEq, Repr

/-- readyState of a browser WebSocket object (CONNECTING=0, OPEN=1,
CLOSING=2, CLOSED=3). -/
inductive ReadyState
  | connecting
  | opened
  | closing
  | closed
deriving DecidableEq, Repr

/-- A domain record (Agent / Mission / arbitrary payload): an identifier
plus the remaining fields as an association list from field name to value.
Payloads arriving over the websocket may mention only a subset of fields. -/
structure Entity where
  id : String
  fields : List (String × String)
deriving DecidableEq, Repr

/-- WebSocketMessage of websocketService.ts:
`{ type, data, timestamp }`. `data` is opaque to the service; it is
modelled as an `Entity` because the registered handlers feed it to the
store upsert functions. -/
structure Message where
  type : MessageType
  data : Entity
  timestamp : String
deriving DecidableEq, Repr

/-- The mutable state of the `WebSocketService` instance, together with
the pool of every `WebSocket` (Transport) object constructed so far.
`sockets` maps socket identity to its current readyState; `current` is the
`this.socket` reference (`none` = null); `attempts` is
`this.reconnectAttempts`; `timer` is the pending reconnect timeout
(`some d` = a timeout armed with delay `d` ms is pending, `none` = no
pending timeout); `status` is `this.connectionStatus`. -/
structure WS where
  sockets : List (Nat × ReadyState)
  current : Option Nat
  attempts : Nat
  timer : Option Nat
  status : ConnectionStatus
  nextId : Nat
deriving DecidableEq, Repr

/-- `this.maxReconnectAttempts = 5` in websocketService.ts. -/
def maxReconnectAttempts : Nat := 5

/-- The delay computed in `attemptReconnect`:
`Math.min(1000 * Math.pow(2, this.reconnectAttempts), 30000)`. -/
def reconnectDelay (n : Nat) : Nat := min (1000 * 2 ^ n) 30000

/-- readyState of socket `i`, if socket `i` has been constructed. -/
def readyOf (s : WS) (i : Nat) : Option ReadyState := List.lookup i s.sockets

/-- The guard of `connect()` and `sendMessage`:
`this.socket?.readyState === WebSocket.OPEN` (false when `this.socket` is
null, via optional chaining). -/
def currentReadyIsOpen (s : WS) : Bool :=
  match s.current with
  | some i => readyOf s i == some ReadyState.opened
  | none => false

/-- Set the readyState of socket `i` in the pool. -/
def setReady (s : WS) (i : Nat) (r : ReadyState) : WS :=
  { s with sockets := s.sockets.map (fun p => if p.1 == i then (p.1, r) else p) }

/-- Effect of `socket.close()` on a WebSocket readyState: a CLOSED socket
stays CLOSED, any other state moves to CLOSING (the close event fires
later, asynchronously). -/
def closeTransition : ReadyState → ReadyState
  | ReadyState.closed => ReadyState.closed
  | _ => ReadyState.closing

/-- `connect()` of websocketService.ts: return immediately if the current
socket's readyState is OPEN; otherwise set status CONNECTING and construct
a fresh `WebSocket` (a fresh socket identity in CONNECTING state), storing
it in `this.socket`. The previously referenced socket, if any, is neither
closed nor has its handlers detached. -/
def connectFn (s : WS) : WS :=
  if currentReadyIsOpen s then s
  else
    { s with
      status := ConnectionStatus.connecting
      sockets := s.sockets ++ [(s.nextId, ReadyState.connecting)]
      current := some s.nextId
      nextId := s.nextId + 1 }

/-- `attemptReconnect()` of websocketService.ts: if
`reconnectAttempts >= maxReconnectAttempts`, return without arming
anything; otherwise arm `reconnectTimeout` with
`min(1000 * 2^attempts, 30000)` ms. -/
def attemptReconnect (s : WS) : WS :=
  if maxReconnectAttempts ≤ s.attempts then s
  else { s with timer := some (reconnectDelay s.attempts) }

/-- `disconnect()` of websocketService.ts: if `this.socket` is non-null,
call `socket.close()` and null the reference; clear any pending
`reconnectTimeout`; set status DISCONNECTED. -/
def disconnectFn (s : WS) : WS :=
  let s1 :=
    match s.current with
    | some i =>
        { setReady s i (closeTransition ((readyOf s i).getD ReadyState.closed)) with
          current := none }
    | none => s
  { s1 with timer := none, status := ConnectionStatus.disconnected }

/-- `handleOpen()` of websocketService.ts: reset `reconnectAttempts` to 0
and set status CONNECTED. It does not inspect which socket fired the
event. -/
def handleOpenFn (s : WS) : WS :=
  { s with attempts := 0, status := ConnectionStatus.connected }

/-- `handleClose()` of websocketService.ts: set status DISCONNECTED, then
call `attemptReconnect()`. It neither clears `this.socket` nor checks
whether the socket that fired the close event is still the current
one. -/
def handleCloseFn (s : WS) : WS :=
  attemptReconnect { s with status := ConnectionStatus.disconnected }

/-- `handleError()` of websocketService.ts: set status ERROR only. -/
def handleErrorFn (s : WS) : WS :=
  { s with status := ConnectionStatus.error }

/-- Events delivered sequentially to the service by the host runtime:
explicit API calls (`connect()` / `disconnect()`), lifecycle events fired
by socket `i` (valid only when socket `i` exists in a readyState that can
fire them), the pending reconnect timeout firing, and an inbound
transport message (whose payload parses or not). -/
inductive Ev
  | connectCall
  | disconnectCall
  | openEvt (i : Nat)
  | closeEvt (i : Nat)
  | errorEvt (i : Nat)
  | timerFire
  | msgEvt (parseOk : Bool)
deriving DecidableEq, Repr

/-- Socket `i` can fire its open event: it exists and is CONNECTING. -/
def canOpen (s : WS) (i : Nat) : Bool :=
  s.sockets.any (fun p => p.1 == i && p.2 == ReadyState.connecting)

/-- Socket `i` can fire a close (or error) event: it exists and is not yet
CLOSED. Handlers stay attached to every constructed socket, so a
superseded socket's events still reach the service. -/
def canClose (s : WS) (i : Nat) : Bool :=
  s.sockets.any (fun p => p.1 == i && p.2 != ReadyState.closed)

/-- One event delivered to the service. Invalid events (from sockets that
cannot fire them, or a timer firing with no pending timeout) are no-ops.
The timer firing runs the `setTimeout` callback of `attemptReconnect`:
increment `reconnectAttempts`, then `connect()`; the timeout is no longer
pending. `handleMessage` touches none of the service's own state
(its dispatch and the store effects are modelled separately below). -/
def step (s : WS) : Ev → WS
  | Ev.connectCall => connectFn s
  | Ev.disconnectCall => disconnectFn s
  | Ev.openEvt i =>
      if canOpen s i then handleOpenFn (setReady s i ReadyState.opened) else s
  | Ev.closeEvt i =>
      if canClose s i then handleCloseFn (setReady s i ReadyState.closed) else s
  | Ev.errorEvt i => if canClose s i then handleErrorFn s else s
  | Ev.timerFire =>
      match s.timer with
      | some _ => connectFn { s with timer := none, attempts := s.attempts + 1 }
      | none => s
  | Ev.msgEvt _ => s

/-- Deliver a list of events in order. -/
def run (s : WS) (evs : List Ev) : WS := evs.foldl step s

/-- The freshly constructed service: no socket, zero attempts, no pending
timer, status DISCONNECTED. -/
def ws0 : WS :=
  { sockets := []
    current := none
    attempts := 0
    timer := none
    status := ConnectionStatus.disconnected
    nextId := 0 }

/-- The message object built and transmitted by `sendMessage`:
`{ type, data, timestamp: new Date().toISOString() }`. -/
structure SentMessage where
  mtype : MessageType
  mdata : Entity
  timestamp : String
deriving DecidableEq, Repr

/-- `sendMessage(type, data)` of websocketService.ts. If
`this.socket?.readyState !== WebSocket.OPEN`, log and return false. The
clock reading (`new Date().toISOString()`) and whether
`JSON.stringify`/`socket.send` throws are environment inputs (`now`,
`serOk`); a throw is caught, logged, and turned into `false`. Returns the
boolean result and the payload handed to `socket.send` (if any). -/
def sendMessage (s : WS) (serOk : Bool) (t : MessageType) (d : Entity)
    (now : String) : Bool × Option SentMessage :=
  if currentReadyIsOpen s then
    if serOk then (true, some { mtype := t, mdata := d, timestamp := now })
    else (false, none)
  else (false, none)

/-- JS object spread `{ ...old, ...inc }` on association lists: the
result has the keys of `old` first (each value overridden by `inc` where
`inc` mentions the key), followed by the keys of `inc` absent from
`old`. -/
def mergeFields (old inc : List (String × String)) : List (String × String) :=
  old.map (fun p => (p.1, (List.lookup p.1 inc).getD p.2)) ++
    inc.filter (fun p => (List.lookup p.1 old).isNone)

/-- `{ ...a, ...agent }` on records carrying an id: the incoming
record's id wins (both carry one), fields merge by spread. -/
def mergeEntity (old inc : Entity) : Entity :=
  { id := inc.id, fields := mergeFields old.fields inc.fields }

/-- The slice of a zustand store state that the websocket upsert touches:
the entity collection (`agents` / `missions`) and the current selection
(`currentAgent` / `currentMission`). -/
structure StoreState where
  items : List Entity
  currentItem : Option Entity
deriving DecidableEq, Repr

/-- `updateAgentFromWebSocket(agent)` of useAgentStore.ts: if some record
with the incoming id exists, map the collection replacing each matching
record by `{ ...a, ...agent }` and replace `currentAgent` by
`{ ...currentAgent, ...agent }` when `currentAgent?.id === agent.id`;
otherwise append the incoming record, leaving the selection untouched. -/
def updateAgentFromWebSocket (st : StoreState) (e : Entity) : StoreState :=
  if st.items.any (fun a => a.id == e.id) then
    { items := st.items.map (fun a => if a.id == e.id then mergeEntity a e else a)
      currentItem :=
        match st.currentItem with
        | some c => if c.id == e.id then some (mergeEntity c e) else some c
        | none => none }
  else { st with items := st.items ++ [e] }

/-- `updateMissionFromWebSocket(mission)` of useMissionStore.ts: textually
identical to `updateAgentFromWebSocket` with missions in place of
agents. -/
def updateMissionFromWebSocket (st : StoreState) (e : Entity) : StoreState :=
  if st.items.any (fun a => a.id == e.id) then
    { items := st.items.map (fun a => if a.id == e.id then mergeEntity a e else a)
      currentItem :=
        match st.currentItem with
        | some c => if c.id == e.id then some (mergeEntity c e) else some c
        | none => none }
  else { st with items := st.items ++ [e] }

/-- A registered message handler, identified by `hid`; `throws` records
whether invoking it raises an exception. -/
structure Handler where
  hid : Nat
  throws : Bool
deriving DecidableEq, Repr

/-- `handlers.forEach(handler => handler(message.data))` inside the single
try/catch of `handleMessage`: handlers run in registration order, each
receiving `message.data`; a throwing handler aborts the `forEach` (the
exception is caught by the surrounding catch and logged), so handlers
after the first throwing one never run. Returns the invocations made,
each as (handler id, data passed). -/
def runHandlers (d : Entity) : List Handler → List (Nat × Entity)
  | [] => []
  | h :: rest =>
      if h.throws then [(h.hid, d)] else (h.hid, d) :: runHandlers d rest

/-- `handleMessage(event)` of websocketService.ts, as the list of handler
invocations it performs: `JSON.parse` failure (`none`) is caught and
logged, invoking nothing; otherwise `this.messageHandlers.get(message.type)`
is looked up and, when present, the handlers run via `runHandlers`. -/
def handleMessage (registry : List (MessageType × List Handler)) :
    Option Message → List (Nat × Entity)
  | none => []
  | some m =>
      match List.lookup m.type registry with
      | none => []
      | some hs => runHandlers m.data hs

/-- The whole client state visible to a transport message event: the
service state, the handler registry (`this.messageHandlers`), and the two
stores whose websocket upsert functions are registered as handlers in
`useWebSocket`. -/
structure FullState where
  ws : WS
  registry : List (MessageType × List Handler)
  agentStore : StoreState
  missionStore : StoreState
deriving DecidableEq, Repr

/-- A transport message event end-to-end: `handleMessage` mutates none of
the service's own fields; on parse failure it only logs. On parse success
the handlers registered by `useWebSocket` run: MISSION_UPDATE feeds
`message.data` to `updateMissionFromWebSocket`, AGENT_UPDATE to
`updateAgentFromWebSocket`; no handler is registered for
SYSTEM_NOTIFICATION there. -/
def onTransportMessage (fs : FullState) : Option Message → FullState
  | none => fs
  | some m =>
      match m.type with
      | MessageType.MISSION_UPDATE =>
          { fs with
            missionStore := updateMissionFromWebSocket fs.missionStore m.data }
      | MessageType.AGENT_UPDATE =>
          { fs with
            agentStore := updateAgentFromWebSocket fs.agentStore m.data }
      | MessageType.SYSTEM_NOTIFICATION => fs

/-- The trace of C5's scenario truncated at exactly 5 consecutive close
events with no intervening successful open: the explicit `connect()`,
whose transport closes, then four reconnect cycles (timer fires,
`connect()` runs, the fresh transport closes again). -/
def closeTrace5 : List Ev :=
  [Ev.connectCall, Ev.closeEvt 0, Ev.timerFire, Ev.closeEvt 1, Ev.timerFire,
   Ev.closeEvt 2, Ev.timerFire, Ev.closeEvt 3, Ev.timerFire, Ev.closeEvt 4]

/-- The same scenario continued through the fifth scheduled reconnect and
its close: six consecutive close events in total. -/
def closeTrace6 : List Ev := closeTrace5 ++ [Ev.timerFire, Ev.closeEvt 5]

/-- A state in which automatic reconnection has stopped: no pending
timer, status DISCONNECTED, every constructed socket CLOSED. -/
def Halted (s : WS) : Prop :=
  s.timer = none ∧ s.status = ConnectionStatus.disconnected ∧
    ∀ p ∈ s.sockets, p.2 = ReadyState.closed

/-- Collection and message data used in concrete test states. -/
def entA : Entity := { id := "agentA", fields := [("status", "idle")] }

/-- Incoming partial update for `entA`: overwrites `status`, adds `task`,
does not mention other fields. -/
def entA2 : Entity := { id := "agentA", fields := [("status", "busy"), ("task", "t1")] }

/-- An unrelated record. -/
def entB : Entity := { id := "agentB", fields := [("status", "error")] }

/-- A concrete registry with two handlers on AGENT_UPDATE, the first of
which throws. -/
def regCx : List (MessageType × List Handler) :=
  [(MessageType.AGENT_UPDATE, [{ hid := 0, throws := true }, { hid := 1, throws := false }])]

/-- A concrete well-formed message carrying `entA2`. -/
def msgCx : Message :=
  { type := MessageType.AGENT_UPDATE, data := entA2, timestamp := "2025-01-01T00:00:00Z" }

/-- A concrete store state holding `entA` and `entB`, with `entA`
selected. -/
def stCx : StoreState := { items := [entA, entB], currentItem := some entA }

/-! ## Helper lemmas -/

/-- Lookup over a concatenation prefers the left list. -/
theorem lookup_append (k : String) (l1 l2 : List (String × String)) :
    List.lookup k (l1 ++ l2) = ((List.lookup k l1).or (List.lookup k l2)) := by
  induction l1 with
  | nil => simp [List.lookup]
  | cons p t ih =>
    obtain ⟨k1, v1⟩ := p
    by_cases h : (k == k1) = true
    · simp [List.lookup, h]
    · simp only [List.cons_append, List.lookup, h]
      simpa using ih

/-- Lookup through the override part of `mergeFields`. -/
theorem lookup_map_override (k : String) (old inc : List (String × String)) :
    List.lookup k (old.map (fun p => (p.1, (List.lookup p.1 inc).getD p.2))) =
      (List.lookup k old).map (fun v => (List.lookup k inc).getD v) := by
  induction old with
  | nil => simp [List.lookup]
  | cons p t ih =>
    obtain ⟨k1, v1⟩ := p
    by_cases h : (k == k1) = true
    · have hk : k = k1 := eq_of_beq h
      subst hk
      simp [List.lookup, h]
    · simp only [List.map_cons, List.lookup, h]
      exact ih

/-- Lookup through the new-keys part of `mergeFields`. -/
theorem lookup_filter_absent (k : String) (old inc : List (String × String)) :
    List.lookup k (inc.filter (fun p => (List.lookup p.1 old).isNone)) =
      (match List.lookup k old with
       | none => List.lookup k inc
       | some _ => none) := by
  induction inc with
  | nil => cases List.lookup k old <;> simp [List.lookup]
  | cons p t ih =>
    obtain ⟨k2, v2⟩ := p
    cases ho : List.lookup k old with
    | some v =>
      simp only [ho] at ih
      simp only [ho]
      by_cases h : (k == k2) = true
      · have hk : k = k2 := eq_of_beq h
        subst hk
        simp [List.filter_cons, ho, ih]
      · cases hf : (List.lookup k2 old).isNone <;>
          simp [List.filter_cons, hf, List.lookup, h, ih]
    | none =>
      simp only [ho] at ih
      simp only [ho]
      by_cases h : (k == k2) = true
      · have hk : k = k2 := eq_of_beq h
        subst hk
        simp [List.filter_cons, ho, List.lookup, ih]
      · cases hf : (List.lookup k2 old).isNone <;>
          simp [List.filter_cons, hf, List.lookup, h, ih]

/-- JS spread field semantics: a field of `mergeFields old inc` reads the
incoming value when the incoming record mentions the key, the old value
otherwise. -/
theorem mergeFields_lookup (old inc : List (String × String)) (k : String) :
    List.lookup k (mergeFields old inc) =
      ((List.lookup k inc).or (List.lookup k old)) := by
  unfold mergeFields
  rw [lookup_append, lookup_map_override, lookup_filter_absent]
  cases ho : List.lookup k old <;> cases hi : List.lookup k inc <;> simp

/-- The merged record keeps the incoming identifier. -/
theorem mergeEntity_id (a e : Entity) : (mergeEntity a e).id = e.id := rfl

/-- Filtering the matching records commutes with the upsert map. -/
theorem filter_map_upsert (es : List Entity) (e : Entity) :
    (es.map (fun a => if a.id == e.id then mergeEntity a e else a)).filter
        (fun a => a.id == e.id) =
      (es.filter (fun a => a.id == e.id)).map (fun a => mergeEntity a e) := by
  induction es with
  | nil => rfl
  | cons a t ih =>
    by_cases h : a.id = e.id
    · simp [List.filter_cons, List.map_cons, h, mergeEntity_id] at ih ⊢
      exact ih
    · simp [List.filter_cons, List.map_cons, h] at ih ⊢
      exact ih

/-- The existence check of the upsert agrees with the matching filter. -/
theorem any_id_false_iff (es : List Entity) (e : Entity) :
    es.any (fun a => a.id == e.id) = false ↔
      es.filter (fun a => a.id == e.id) = [] := by
  rw [List.filter_eq_nil_iff]
  simp [List.any_eq_true]

/-- A unique matching record makes the existence check succeed. -/
theorem filter_singleton_mem (es : List Entity) (e r : Entity)
    (h : es.filter (fun a => a.id == e.id) = [r]) :
    es.any (fun a => a.id == e.id) = true := by
  have hr : r ∈ es.filter (fun a => a.id == e.id) := by
    rw [h]
    exact List.mem_singleton_self r
  have hm := List.mem_filter.mp hr
  exact List.any_eq_true.mpr ⟨r, hm.1, hm.2⟩

/-- The collection produced by the merge branch of the upsert. -/
theorem upsert_items_of_any (st : StoreState) (e : Entity)
    (ha : st.items.any (fun a => a.id == e.id) = true) :
    (updateAgentFromWebSocket st e).items =
      st.items.map (fun a => if a.id == e.id then mergeEntity a e else a) := by
  simp only [updateAgentFromWebSocket, ha, if_true]

/-- A successful lookup comes from a list member. -/
theorem lookup_mem_nat (l : List (Nat × ReadyState)) (i : Nat) (r : ReadyState)
    (h : List.lookup i l = some r) : (i, r) ∈ l := by
  induction l with
  | nil => simp [List.lookup] at h
  | cons p t ih =>
    obtain ⟨k, v⟩ := p
    by_cases hk : (i == k) = true
    · have hik : i = k := eq_of_beq hk
      subst hik
      simp [List.lookup, hk] at h
      subst h
      exact List.mem_cons_self _ _
    · simp only [List.lookup, hk] at h
      exact List.mem_cons_of_mem _ (ih h)

/-- A socket that just fired its open event can still fire a close
event. -/
theorem canClose_after_open (s : WS) (i : Nat) (h : canOpen s i = true) :
    canClose (setReady s i ReadyState.opened) i = true := by
  obtain ⟨p, hp, hcond⟩ := List.any_eq_true.mp h
  rw [Bool.and_eq_true] at hcond
  obtain ⟨h1, h2⟩ := hcond
  refine List.any_eq_true.mpr ⟨(p.1, ReadyState.opened), ?_, ?_⟩
  · simp only [setReady]
    exact List.mem_map.mpr ⟨p, hp, by rw [if_pos h1]⟩
  · simp [h1]

/-- Once reconnection has halted, every event except an explicit
`connect()` call leaves the halted state unchanged in timer, status and
socket pool. -/
theorem halted_step (s : WS) (e : Ev) (hh : Halted s) (hne : e ≠ Ev.connectCall) :
    Halted (step s e) := by
  obtain ⟨ht, hs, hsk⟩ := hh
  cases e with
  | connectCall => exact absurd rfl hne
  | disconnectCall =>
      cases hc : s.current with
      | none =>
          exact ⟨by simp [step, disconnectFn, hc], by simp [step, disconnectFn, hc],
            by simp only [step, disconnectFn, hc]; exact hsk⟩
      | some i =>
          refine ⟨by simp [step, disconnectFn, hc], by simp [step, disconnectFn, hc], ?_⟩
          simp only [step, disconnectFn, hc]
          intro p hp
          simp only [setReady, List.mem_map] at hp
          obtain ⟨q, hq, hpq⟩ := hp
          by_cases hqi : (q.1 == i) = true
          · rw [if_pos hqi] at hpq
            cases hr : readyOf s i with
            | none => rw [← hpq]; simp [hr, closeTransition]
            | some r =>
                have hmem : (i, r) ∈ s.sockets := lookup_mem_nat s.sockets i r hr
                have hrc : r = ReadyState.closed := hsk _ hmem
                rw [← hpq]
                simp [hr, hrc, closeTransition]
          · rw [if_neg hqi] at hpq
            rw [← hpq]
            exact hsk q hq
  | openEvt i =>
      have hco : canOpen s i = false := by
        cases hb : canOpen s i with
        | false => rfl
        | true =>
            obtain ⟨p, hp, hcond⟩ := List.any_eq_true.mp hb
            rw [Bool.and_eq_true] at hcond
            obtain ⟨h1, h2⟩ := hcond
            have hpc : p.2 = ReadyState.connecting := eq_of_beq h2
            rw [hsk p hp] at hpc
            exact absurd hpc (by simp)
      simpa [step, hco] using ⟨ht, hs, hsk⟩
  | closeEvt i =>
      have hco : canClose s i = false := by
        cases hb : canClose s i with
        | false => rfl
        | true =>
            obtain ⟨p, hp, hcond⟩ := List.any_eq_true.mp hb
            rw [Bool.and_eq_true] at hcond
            obtain ⟨h1, h2⟩ := hcond
            have hpc : p.2 ≠ ReadyState.closed := by
              simpa using h2
            exact absurd (hsk p hp) hpc
      simpa [step, hco] using ⟨ht, hs, hsk⟩
  | errorEvt i =>
      have hco : canClose s i = false := by
        cases hb : canClose s i with
        | false => rfl
        | true =>
            obtain ⟨p, hp, hcond⟩ := List.any_eq_true.mp hb
            rw [Bool.and_eq_true] at hcond
            obtain ⟨h1, h2⟩ := hcond
            have hpc : p.2 ≠ ReadyState.closed := by
              simpa using h2
            exact absurd (hsk p hp) hpc
      simpa [step, hco] using ⟨ht, hs, hsk⟩
  | timerFire => simpa [step, ht] using ⟨ht, hs, hsk⟩
  | msgEvt ok => simpa [step] using ⟨ht, hs, hsk⟩

/-- `halted_step` extended over a whole trace. -/
theorem halted_run (evs : List Ev) (s : WS) (hh : Halted s)
    (hne : ∀ e ∈ evs, e ≠ Ev.connectCall) : Halted (run s evs) := by
  induction evs generalizing s with
  | nil => exact hh
  | cons e t ih =>
      have h1 : Halted (step s e) := halted_step s e hh (hne e (List.mem_cons_self e t))
      exact ih (step s e) h1 (fun x hx => hne x (List.mem_cons_of_mem e hx))

/-- Handlers all succeed: every one is invoked in order with the data. -/
theorem runHandlers_all_ok (d : Entity) (hs : List Handler)
    (h : ∀ x ∈ hs, x.throws = false) :
    runHandlers d hs = hs.map (fun x => (x.hid, d)) := by
  induction hs with
  | nil => rfl
  | cons a t ih =>
      have ha := h a (List.mem_cons_self a t)
      simp [runHandlers, ha, ih (fun x hx => h x (List.mem_cons_of_mem a hx))]

/-- The first throwing handler ends the `forEach`: the handlers before it
and itself run, the ones after it never do. -/
theorem runHandlers_first_throw (d : Entity) (pre post : List Handler) (ht : Handler)
    (hpre : ∀ x ∈ pre, x.throws = false) (hth : ht.throws = true) :
    runHandlers d (pre ++ ht :: post) = (pre ++ [ht]).map (fun x => (x.hid, d)) := by
  induction pre with
  | nil => simp [runHandlers, hth]
  | cons a t ih =>
      have ha := hpre a (List.mem_cons_self a t)
      simp [runHandlers, ha, ih (fun x hx => hpre x (List.mem_cons_of_mem a hx))]

/-! ## Claim theorems -/

/-- C1: for every reconnect attempt index `n` below `maxReconnectAttempts`,
the delay armed by `attemptReconnect` when a close event fires equals
`min(1000 * 2^n, 30000)` ms; concretely the first five delays are 1000,
2000, 4000, 8000 and 16000 ms. -/
theorem reconnect_backoff_delay (s : WS) (i n : Nat)
    (hn : s.attempts = n) (hlt : n < maxReconnectAttempts) (hc : canClose s i = true) :
    (step s (Ev.closeEvt i)).timer = some (min (1000 * 2 ^ n) 30000)
    ∧ reconnectDelay 0 = 1000 ∧ reconnectDelay 1 = 2000 ∧ reconnectDelay 2 = 4000
    ∧ reconnectDelay 3 = 8000 ∧ reconnectDelay 4 = 16000 := by
  refine ⟨?_, rfl, rfl, rfl, rfl, rfl⟩
  have h5 : ¬ (maxReconnectAttempts ≤ n) := Nat.not_le.mpr hlt
  simp [step, hc, handleCloseFn, attemptReconnect, setReady, h5, reconnectDelay, hn]

/-- C1 witness: in the concrete state reached by one `connect()` whose
transport then closes, the armed delay is `min(1000 * 2^0, 30000)`. -/
theorem reconnect_backoff_delay_witness :
    (step (run ws0 [Ev.connectCall]) (Ev.closeEvt 0)).timer =
      some (min (1000 * 2 ^ 0) 30000) :=
  (reconnect_backoff_delay (run ws0 [Ev.connectCall]) 0 0 rfl (by decide) (by decide)).1

/-- C2: the claim is right and the code is wrong. `disconnect()` does
clear the pending reconnect timer (first conjunct), but the close event
that the just-closed, superseded transport later delivers re-arms a
1000 ms reconnect timer, because `handleClose` calls `attemptReconnect`
without checking that the event's socket is still the manager's current
transport (second conjunct: timer pending while `this.socket` is null,
after an explicit `disconnect()`). -/
theorem disconnect_then_close_rearms_timer :
    (run ws0 [Ev.connectCall, Ev.openEvt 0, Ev.disconnectCall]).timer = none
    ∧ (run ws0 [Ev.connectCall, Ev.openEvt 0, Ev.disconnectCall, Ev.closeEvt 0]).timer
        = some 1000
    ∧ (run ws0 [Ev.connectCall, Ev.openEvt 0, Ev.disconnectCall, Ev.closeEvt 0]).current
        = none := by
  decide

/-- C3 counterexample: with two handlers subscribed to AGENT_UPDATE, the
first of which throws, dispatching an AGENT_UPDATE message invokes only
the first handler — the second subscribed handler is never invoked, so
dispatch is not fail-isolated per handler. -/
theorem throwing_handler_stops_dispatch_cx :
    (handleMessage regCx (some msgCx)).length = 1
    ∧ handleMessage regCx (some msgCx) = [(0, entA2)] := by
  decide

/-- C3 amended: dispatch invokes the handlers subscribed to the message's
type in order, each with the message's data; if no handler throws, all of
them run; if handler `hi` is the first to throw, the exception is caught
by `handleMessage`'s catch-all (logged, not propagated), but the handlers
after `hi` are NOT invoked. -/
theorem dispatch_stops_at_first_throwing_handler
    (reg : List (MessageType × List Handler)) (m : Message)
    (hs pre post : List Handler) (hthrow : Handler)
    (hlook : List.lookup m.type reg = some hs) :
    ((∀ x ∈ hs, x.throws = false) →
        handleMessage reg (some m) = hs.map (fun x => (x.hid, m.data)))
    ∧ (hs = pre ++ hthrow :: post → (∀ x ∈ pre, x.throws = false) →
        hthrow.throws = true →
        handleMessage reg (some m) = (pre ++ [hthrow]).map (fun x => (x.hid, m.data))) := by
  constructor
  · intro h
    simp only [handleMessage, hlook]
    exact runHandlers_all_ok m.data hs h
  · intro heq hpre hth
    subst heq
    simp only [handleMessage, hlook]
    exact runHandlers_first_throw m.data pre post hthrow hpre hth

/-- C3 witness: the amended dispatch law evaluated on the concrete
registry whose first AGENT_UPDATE handler throws. -/
theorem dispatch_stops_at_first_throwing_handler_witness :
    List.lookup msgCx.type regCx =
      some [{ hid := 0, throws := true }, { hid := 1, throws := false }]
    ∧ handleMessage regCx (some msgCx) = [(0, entA2)] :=
  ⟨by decide,
   ((dispatch_stops_at_first_throwing_handler regCx msgCx
      [{ hid := 0, throws := true }, { hid := 1, throws := false }]
      [] [{ hid := 1, throws := false }] { hid := 0, throws := true }
      (by decide)).2 rfl (by decide) rfl).trans (by decide)⟩

/-- C4 counterexample: calling `connect()` twice from the initial state —
the second call while the first transport is still CONNECTING — leaves two
transports alive simultaneously (neither is CLOSED nor CLOSING), because
`connect()` only returns early when the current socket's readyState is
OPEN and never closes the socket it replaces. -/
theorem connect_twice_two_live_transports :
    (run ws0 [Ev.connectCall, Ev.connectCall]).sockets =
      [(0, ReadyState.connecting), (1, ReadyState.connecting)]
    ∧ (run ws0 [Ev.connectCall, Ev.connectCall]).current = some 1 := by
  decide

/-- C4 amended: `connect()` is a no-op exactly when the current transport
is OPEN; in every other state (including a transport still CONNECTING) it
constructs a fresh transport and stores it as current, leaving every
previously constructed transport in the pool untouched — so more than one
live transport can exist per service instance. -/
theorem connect_noop_only_when_open (s : WS) :
    (currentReadyIsOpen s = true → step s Ev.connectCall = s)
    ∧ (currentReadyIsOpen s = false →
        (step s Ev.connectCall).sockets = s.sockets ++ [(s.nextId, ReadyState.connecting)]
        ∧ (step s Ev.connectCall).current = some s.nextId) := by
  constructor
  · intro h
    simp [step, connectFn, h]
  · intro h
    simp [step, connectFn, h]

/-- C4 witness: the amended connect law evaluated at the initial state. -/
theorem connect_noop_only_when_open_witness :
    currentReadyIsOpen ws0 = false
    ∧ (step ws0 Ev.connectCall).sockets = ws0.sockets ++ [(ws0.nextId, ReadyState.connecting)]
    ∧ (step ws0 Ev.connectCall).current = some ws0.nextId :=
  ⟨by decide, (connect_noop_only_when_open ws0).2 (by decide)⟩

/-- C5 counterexample: after exactly `maxReconnectAttempts` (5)
consecutive close events with no intervening open, a reconnect timer IS
still armed (16000 ms — the fifth scheduled retry), and when it fires the
status becomes CONNECTING rather than remaining DISCONNECTED: the claim's
count is off by one, since the attempt counter only increments when a
timer fires, so the n-th close is rejected only when n reaches 6. -/
theorem five_closes_timer_still_armed :
    (run ws0 closeTrace5).timer = some 16000
    ∧ (run ws0 (closeTrace5 ++ [Ev.timerFire])).status = ConnectionStatus.connecting := by
  decide

/-- C5 amended: after `maxReconnectAttempts + 1` (6) consecutive close
events with no intervening successful open — the initial connection's
failure plus the failures of all 5 scheduled reconnect attempts — no
reconnect timer is pending, the status is DISCONNECTED, and both remain so
under every further event except an explicit `connect()` call. -/
theorem reconnect_exhaustion_after_six_closes (evs : List Ev)
    (hne : ∀ e ∈ evs, e ≠ Ev.connectCall) :
    (run ws0 closeTrace6).timer = none
    ∧ (run ws0 closeTrace6).status = ConnectionStatus.disconnected
    ∧ (run (run ws0 closeTrace6) evs).timer = none
    ∧ (run (run ws0 closeTrace6) evs).status = ConnectionStatus.disconnected := by
  have h6 : Halted (run ws0 closeTrace6) := ⟨by decide, by decide, by decide⟩
  have hr := halted_run evs (run ws0 closeTrace6) h6 hne
  exact ⟨h6.1, h6.2.1, hr.1, hr.2.1⟩

/-- C5 witness: the exhausted state absorbs a stray timer firing, a stray
close event and a `disconnect()` call. -/
theorem reconnect_exhaustion_after_six_closes_witness :
    (run ws0 closeTrace6).timer = none
    ∧ (run ws0 closeTrace6).status = ConnectionStatus.disconnected
    ∧ (run (run ws0 closeTrace6) [Ev.timerFire, Ev.closeEvt 5, Ev.disconnectCall]).timer = none
    ∧ (run (run ws0 closeTrace6)
        [Ev.timerFire, Ev.closeEvt 5, Ev.disconnectCall]).status =
          ConnectionStatus.disconnected :=
  reconnect_exhaustion_after_six_closes [Ev.timerFire, Ev.closeEvt 5, Ev.disconnectCall]
    (by decide)

/-- C6: every transport open event resets the reconnect-attempt counter to
0 and sets the status to CONNECTED, so a close event arriving right after
the successful open arms the first reconnect with delay(0) = 1000 ms
rather than continuing the prior delay sequence. -/
theorem open_resets_attempt_counter (s : WS) (i : Nat) (h : canOpen s i = true) :
    (step s (Ev.openEvt i)).attempts = 0
    ∧ (step s (Ev.openEvt i)).status = ConnectionStatus.connected
    ∧ (step (step s (Ev.openEvt i)) (Ev.closeEvt i)).timer = some 1000 := by
  have hstep : step s (Ev.openEvt i) = handleOpenFn (setReady s i ReadyState.opened) := by
    simp [step, h]
  refine ⟨by rw [hstep]; rfl, by rw [hstep]; rfl, ?_⟩
  have hc : canClose (handleOpenFn (setReady s i ReadyState.opened)) i = true :=
    canClose_after_open s i h
  rw [hstep]
  simp only [step]
  rw [hc]
  simp [handleCloseFn, attemptReconnect, setReady, handleOpenFn,
    maxReconnectAttempts, reconnectDelay]

/-- C6 witness: the reset law evaluated on the transport created by the
first `connect()`. -/
theorem open_resets_attempt_counter_witness :
    (step (run ws0 [Ev.connectCall]) (Ev.openEvt 0)).attempts = 0
    ∧ (step (run ws0 [Ev.connectCall]) (Ev.openEvt 0)).status = ConnectionStatus.connected
    ∧ (step (step (run ws0 [Ev.connectCall]) (Ev.openEvt 0)) (Ev.closeEvt 0)).timer =
        some 1000 :=
  open_resets_attempt_counter (run ws0 [Ev.connectCall]) 0 (by decide)

/-- C7: `sendMessage` returns true exactly when the transport is
open-ready and serialization succeeds, and then the transmitted payload's
type and data fields equal the call arguments; when the transport is not
open or serialization fails it returns false and transmits nothing (the
embedding is a total function: no exception crosses the boundary, the
source's catch turns a throw into `return false`). -/
theorem send_boundary_spec (s : WS) (serOk : Bool) (t : MessageType) (d : Entity)
    (now : String) :
    (currentReadyIsOpen s = true → serOk = true →
        sendMessage s serOk t d now =
          (true, some { mtype := t, mdata := d, timestamp := now }))
    ∧ (currentReadyIsOpen s = false ∨ serOk = false →
        sendMessage s serOk t d now = (false, none)) := by
  constructor
  · intro h1 h2
    simp [sendMessage, h1, h2]
  · intro h
    rcases h with h | h
    · simp [sendMessage, h]
    · cases hc : currentReadyIsOpen s <;> simp [sendMessage, hc, h]

/-- C7 witness: a send on an open transport transmits the exact payload
and returns true; a send on the never-connected initial state returns
false. -/
theorem send_boundary_spec_witness :
    currentReadyIsOpen (run ws0 [Ev.connectCall, Ev.openEvt 0]) = true
    ∧ sendMessage (run ws0 [Ev.connectCall, Ev.openEvt 0]) true
        MessageType.AGENT_UPDATE entA2 "ts" =
      (true, some { mtype := MessageType.AGENT_UPDATE, mdata := entA2, timestamp := "ts" })
    ∧ sendMessage ws0 true MessageType.AGENT_UPDATE entA2 "ts" = (false, none) :=
  ⟨by decide,
   (send_boundary_spec (run ws0 [Ev.connectCall, Ev.openEvt 0]) true
      MessageType.AGENT_UPDATE entA2 "ts").1 (by decide) rfl,
   (send_boundary_spec ws0 true MessageType.AGENT_UPDATE entA2 "ts").2
      (Or.inl (by decide))⟩

/-- C8: for both stores' websocket upserts, on a collection in which the
incoming id occurs at most once: if no record with the incoming id exists
the entity is appended as-is; if the unique matching record is `r` the
resulting collection's unique matching record is the shallow merge of `r`
and the incoming entity, whose every field reads the incoming value when
the incoming payload mentions the key and the old value otherwise; and in
both cases the resulting collection contains exactly one record with the
incoming id. -/
theorem upsert_shallow_merge_spec (st : StoreState) (e r : Entity) (k : String)
    (h1 : (st.items.filter (fun a => a.id == e.id)).length ≤ 1) :
    (st.items.any (fun a => a.id == e.id) = false →
        (updateAgentFromWebSocket st e).items = st.items ++ [e]
        ∧ (updateMissionFromWebSocket st e).items = st.items ++ [e])
    ∧ (st.items.filter (fun a => a.id == e.id) = [r] →
        (updateAgentFromWebSocket st e).items.filter (fun a => a.id == e.id) =
            [mergeEntity r e]
        ∧ (updateMissionFromWebSocket st e).items.filter (fun a => a.id == e.id) =
            [mergeEntity r e]
        ∧ List.lookup k (mergeEntity r e).fields =
            ((List.lookup k e.fields).or (List.lookup k r.fields)))
    ∧ ((updateAgentFromWebSocket st e).items.filter (fun a => a.id == e.id)).length = 1
    ∧ ((updateMissionFromWebSocket st e).items.filter (fun a => a.id == e.id)).length = 1 := by
  have hsame : updateMissionFromWebSocket st e = updateAgentFromWebSocket st e := rfl
  rw [hsame]
  refine ⟨?_, ?_, ?_, ?_⟩
  · intro h
    simp [updateAgentFromWebSocket, h]
  · intro hf
    have ha := filter_singleton_mem st.items e r hf
    have hm : (updateAgentFromWebSocket st e).items.filter (fun a => a.id == e.id) =
        [mergeEntity r e] := by
      rw [upsert_items_of_any st e ha, filter_map_upsert, hf]
      rfl
    exact ⟨hm, hm, mergeFields_lookup r.fields e.fields k⟩
  all_goals
    cases hv : st.items.any (fun a => a.id == e.id) with
    | false =>
        have hnil := (any_id_false_iff st.items e).mp hv
        simp [updateAgentFromWebSocket, hv, List.filter_append, hnil, List.filter_cons]
    | true =>
        have hne : st.items.filter (fun a => a.id == e.id) ≠ [] := by
          intro hc
          rw [(any_id_false_iff st.items e).mpr hc] at hv
          exact absurd hv (by simp)
        have hlen : (st.items.filter (fun a => a.id == e.id)).length = 1 := by
          have hpos : 0 < (st.items.filter (fun a => a.id == e.id)).length :=
            List.length_pos.mpr hne
          omega
        rw [upsert_items_of_any st e hv, filter_map_upsert]
        simp [hlen]

/-- C8 witness: merging the partial update `entA2` over the stored record
`entA` overwrites `status`, keeps the unchanged field reads, and leaves
exactly one `agentA` record. -/
theorem upsert_shallow_merge_spec_witness :
    (stCx.items.filter (fun a => a.id == entA2.id)).length ≤ 1
    ∧ stCx.items.filter (fun a => a.id == entA2.id) = [entA]
    ∧ (updateAgentFromWebSocket stCx entA2).items.filter (fun a => a.id == entA2.id) =
        [mergeEntity entA entA2]
    ∧ List.lookup "status" (mergeEntity entA entA2).fields =
        ((List.lookup "status" entA2.fields).or (List.lookup "status" entA.fields)) :=
  ⟨by decide, by decide,
   ((upsert_shallow_merge_spec stCx entA2 entA "status" (by decide)).2.1 (by decide)).1,
   ((upsert_shallow_merge_spec stCx entA2 entA "status" (by decide)).2.1 (by decide)).2.2⟩

/-- C9: a transport message whose payload fails to parse is dropped
without any effect: the full client state (service status and attempt
counter, handler registry, both entity collections) is unchanged, no
handler is invoked, and the service's own state is untouched by any
message event (the embedding is total: the parse error is caught). -/
theorem parse_failure_frame (fs : FullState) (s : WS)
    (reg : List (MessageType × List Handler)) :
    onTransportMessage fs none = fs
    ∧ (onTransportMessage fs none).ws.status = fs.ws.status
    ∧ (onTransportMessage fs none).ws.attempts = fs.ws.attempts
    ∧ (onTransportMessage fs none).registry = fs.registry
    ∧ (onTransportMessage fs none).agentStore = fs.agentStore
    ∧ (onTransportMessage fs none).missionStore = fs.missionStore
    ∧ handleMessage reg none = []
    ∧ step s (Ev.msgEvt false) = s :=
  ⟨rfl, rfl, rfl, rfl, rfl, rfl, rfl, rfl⟩

/-- C10: for both stores, the websocket upsert replaces the current-entity
selection by its shallow merge with the incoming entity exactly when the
selection is non-null, its id equals the incoming id, and a matching
record exists in the collection; in every other case (differing id, null
selection, or id absent from the collection) the selection is left
unchanged. -/
theorem current_selection_spec (st : StoreState) (e c : Entity) :
    (st.currentItem = some c → c.id = e.id →
        st.items.any (fun a => a.id == e.id) = true →
        (updateAgentFromWebSocket st e).currentItem = some (mergeEntity c e)
        ∧ (updateMissionFromWebSocket st e).currentItem = some (mergeEntity c e))
    ∧ (st.currentItem = some c → ¬ c.id = e.id →
        (updateAgentFromWebSocket st e).currentItem = some c
        ∧ (updateMissionFromWebSocket st e).currentItem = some c)
    ∧ (st.currentItem = none →
        (updateAgentFromWebSocket st e).currentItem = none
        ∧ (updateMissionFromWebSocket st e).currentItem = none)
    ∧ (st.items.any (fun a => a.id == e.id) = false →
        (updateAgentFromWebSocket st e).currentItem = st.currentItem
        ∧ (updateMissionFromWebSocket st e).currentItem = st.currentItem) := by
  have hsame : updateMissionFromWebSocket st e = updateAgentFromWebSocket st e := rfl
  rw [hsame]
  refine ⟨?_, ?_, ?_, ?_⟩
  · intro hc hid hv
    simp [updateAgentFromWebSocket, hv, hc, hid]
  · intro hc hid
    cases hv : st.items.any (fun a => a.id == e.id) <;>
      simp [updateAgentFromWebSocket, hv, hc, hid]
  · intro hc
    cases hv : st.items.any (fun a => a.id == e.id) <;>
      simp [updateAgentFromWebSocket, hv, hc]
  · intro hv
    simp [updateAgentFromWebSocket, hv]

/-- C10 witness: with `agentA` selected and present, the upsert replaces
the selection by the merged record in both stores. -/
theorem current_selection_spec_witness :
    stCx.currentItem = some entA
    ∧ entA.id = entA2.id
    ∧ stCx.items.any (fun a => a.id == entA2.id) = true
    ∧ (updateAgentFromWebSocket stCx entA2).currentItem = some (mergeEntity entA entA2)
    ∧ (updateMissionFromWebSocket stCx entA2).currentItem = some (mergeEntity entA entA2) :=
  ⟨rfl, rfl, by decide,
   (current_selection_spec stCx entA2 entA).1 rfl rfl (by decide)⟩

end SuperMean
